import Mathlib

/-!
Verification development for the basilisk-comms repository: a shallow
embedding of `src/basilisk/comms.py` (the `BasiliskComms` orchestrator),
`src/basilisk/platforms/base.py` (the `Message` model, the `BasePlatform`
contract and the polling loop `monitor_messages`) and
`src/basilisk/utils/security.py` (`SecurityProtocol.sanitize_input` and
`RateLimiter.can_proceed`), together with theorems settling the frozen
claims about that code.

Modelling conventions: Python dicts become insertion-ordered association
lists (`List (String × _)`), dict assignment is `dictSet`, `dict.get` is
`List.lookup`; a Python call that can raise returns a `PyResult`; the
wall clock is an explicit parameter; backends are records of observable
behaviours (returned value or raised exception per operation).
-/

namespace Basilisk

/-- Python exceptions raised by the embedded code. -/
inductive PyExc where
  | keyError (key : String)
  | valueError (msg : String)
  | nameError (name : String)
  | runtimeError (msg : String)
deriving DecidableEq

/-- Outcome of running a piece of Python code: a value, or a raised
exception. -/
inductive PyResult (α : Type) where
  | ok (value : α)
  | exc (e : PyExc)
deriving DecidableEq

/-- Map over the success value of a `PyResult`. -/
def PyResult.map {α β : Type} (f : α → β) : PyResult α → PyResult β
  | .ok a => .ok (f a)
  | .exc e => .exc e

/-- Python dict assignment `d[k] = v` on an insertion-ordered association
list: overwrite the first binding of `k` in place, else append at the end
(Python dict semantics). -/
def dictSet {α : Type} : List (String × α) → String → α → List (String × α)
  | [], k, v => [(k, v)]
  | (k1, v1) :: rest, k, v =>
    if k1 = k then (k1, v) :: rest else (k1, v1) :: dictSet rest k v

/-- Python `config.get (key, default)` for the numeric configuration keys. -/
def cfgGet (config : List (String × Nat)) (key : String) (dflt : Nat) : Nat :=
  (List.lookup key config).getD dflt

/-- Python `str.isprintable` for a single character, as used by
`SecurityProtocol.sanitize_input` (src/basilisk/utils/security.py line 59).
Python deems a character printable unless its Unicode general category is
control, separator or format class, with ASCII space printable. The model
lists the control codepoints (C0, DEL, C1), the separator codepoints
(Zs other than U+0020, Zl, Zp) and the format codepoints of the Latin-1
and general-punctuation blocks; the claims that use it only distinguish
ordinary text from control characters. -/
def isprintable (c : Char) : Bool :=
  let n := c.toNat
  !(n < 0x20 || n == 0x7f || (0x80 ≤ n && n ≤ 0x9f) || n == 0xa0 ||
    n == 0xad || n == 0x1680 || (0x2000 ≤ n && n ≤ 0x200f) ||
    n == 0x2028 || n == 0x2029 || (0x202a ≤ n && n ≤ 0x202f) ||
    (0x205f ≤ n && n ≤ 0x2064) || (0x2066 ≤ n && n ≤ 0x206f) ||
    n == 0x3000 || n == 0xfeff)

/-- `SecurityProtocol.sanitize_input` (security.py lines 55-59): keep
exactly the characters for which `char.isprintable()` holds. -/
def sanitize_input (text : String) : String :=
  String.mk (text.data.filter isprintable)

/-- Names bound at module level in src/basilisk/utils/security.py: its
imports (Fernet, Dict, Any, os, json, Path, base64) and its two classes.
The module never imports `time`. -/
def securityModuleGlobals : List String :=
  ["Fernet", "Dict", "Any", "os", "json", "Path", "base64",
   "SecurityProtocol", "RateLimiter"]

/-- Evaluating a bare name in the security module: a name not bound in the
module's namespace (nor a builtin) raises `NameError`. -/
def evalSecurityName (n : String) : PyResult Unit :=
  if n ∈ securityModuleGlobals then .ok () else .exc (.nameError n)

/-- `RateLimiter` state (security.py lines 61-65): the configured limits
and the list of admitted request timestamps. Timestamps are integers
standing for `time.time()` values. -/
structure RateLimiter where
  max_requests : Nat
  window_minutes : Nat
  requests : List Int
deriving DecidableEq

/-- A fresh `RateLimiter()` with the default arguments (300 requests per
180-minute window, empty history). -/
def RateLimiter.new : RateLimiter :=
  { max_requests := 300, window_minutes := 180, requests := [] }

/-- `RateLimiter.can_proceed` (security.py lines 67-77), statement by
statement. Its first statement evaluates `time.time()`; the name `time`
is resolved in the module namespace first, and `securityModuleGlobals`
shows it is unbound, so that lookup raises before the request history is
touched. The remaining statements (prune the sliding window, admit and
record if under `max_requests`) are embedded after the lookup, guarded by
its success. `clock` is the value `time.time()` would have returned. -/
def can_proceed (rl : RateLimiter) (clock : Int) : PyResult (Bool × RateLimiter) :=
  match evalSecurityName "time" with
  | .exc e => .exc e
  | .ok _ =>
    let current_time := clock
    let kept := rl.requests.filter
      (fun req_time => current_time - req_time < (rl.window_minutes : Int) * 60)
    if kept.length < rl.max_requests then
      .ok (true, { rl with requests := kept ++ [current_time] })
    else
      .ok (false, { rl with requests := kept })

/-- State of the scanner for Python `str.format`: either copying literal
text, or inside a replacement field accumulating the field name
(in reverse). -/
inductive FormatState where
  | literal
  | field (acc : List Char)

/-- Scanner for Python `str.format(**kwargs)` restricted to the simple
named replacement fields and doubled-brace escapes that the repository's
templates use: a field whose name is missing from `kwargs` raises
`KeyError` with that name (the only exception `broadcast_message`
catches); a stray closing brace or an unterminated field raises
`ValueError`. -/
def pyFormatGo (kwargs : List (String × String)) : FormatState → List Char → PyResult String
  | .literal, [] => .ok ""
  | .literal, '{' :: '{' :: rest =>
    (pyFormatGo kwargs .literal rest).map (fun s => String.mk ('{' :: s.data))
  | .literal, '}' :: '}' :: rest =>
    (pyFormatGo kwargs .literal rest).map (fun s => String.mk ('}' :: s.data))
  | .literal, '{' :: rest => pyFormatGo kwargs (.field []) rest
  | .literal, '}' :: _ => .exc (.valueError "single closing brace in format string")
  | .literal, c :: rest =>
    (pyFormatGo kwargs .literal rest).map (fun s => String.mk (c :: s.data))
  | .field _, [] => .exc (.valueError "unterminated replacement field")
  | .field acc, '}' :: rest =>
    match List.lookup (String.mk acc.reverse) kwargs with
    | some v => (pyFormatGo kwargs .literal rest).map (fun s => v ++ s)
    | none => .exc (.keyError (String.mk acc.reverse))
  | .field acc, c :: rest => pyFormatGo kwargs (.field (c :: acc)) rest

/-- `template["content"].format(**kwargs)` (comms.py line 126). -/
def pyFormat (template : String) (kwargs : List (String × String)) : PyResult String :=
  pyFormatGo kwargs .literal template.data

/-- The metadata dict `broadcast_message` attaches to the message it
builds (comms.py line 136): the template name and the template's tags. -/
structure MessageMetadata where
  template : String
  tags : List String
deriving DecidableEq

/-- base.py lines 13-20: the universal message dataclass. `timestamp` is
an abstract clock value (the orchestrator passes `datetime.now()`);
`metadata` and `attachments` default to None in the dataclass, modelled
as `none`. -/
structure Message where
  content : String
  timestamp : Nat
  platform : String
  metadata : Option MessageMetadata
  attachments : Option (List String)
deriving DecidableEq

/-- One entry of the template store `self.message_templates`: the
`content` string, the tags (the value `template.get("tags", [])` reads; a
template without a tags key is modelled by the empty list) and the
category label. -/
structure Template where
  content : String
  tags : List String
  category : String
deriving DecidableEq

/-- The slice of the `BasePlatform` contract (base.py lines 29-81) that
the claims exercise. Each operation is the backend's observable
behaviour: a returned value or a raised exception. `get_messages` takes
the requested limit and the index of the poll, since successive polls of
the external service may yield different batches; `config` holds the
numeric configuration keys `monitor_messages` reads
(`poll_interval`, `error_delay`). -/
structure Backend where
  send_message : Message → PyResult Bool
  react_to_message : String → String → PyResult Bool
  delete_message : String → PyResult Bool
  get_messages : Nat → Nat → PyResult (List Message)
  config : List (String × Nat)

/-- The mutable fields of `BasiliskComms` the claims mention: the
active-backend mapping `self.platforms` and the template store
`self.message_templates`, both insertion-ordered dicts. -/
structure CommsState where
  platforms : List (String × Backend)
  message_templates : List (String × Template)

/-- comms.py line 140: `platforms or self.platforms.keys()`. Python `or`
yields the right operand when the left one is falsy, which is the case
both for None and for an empty list. -/
def targetsOf (st : CommsState) (platforms : Option (List String)) : List String :=
  match platforms with
  | some l => if l = [] then st.platforms.map Prod.fst else l
  | none => st.platforms.map Prod.fst

/-- The `Message` object `broadcast_message` constructs (comms.py lines
132-137) from the formatted content. -/
def broadcastMessageOf (now : Nat) (template_name : String) (template : Template)
    (content : String) : Message :=
  { content := content
    timestamp := now
    platform := "multi"
    metadata := some { template := template_name, tags := template.tags }
    attachments := none }

/-- One pass of the per-target loop of `broadcast_message` (comms.py
lines 141-159): a target absent from `self.platforms` gets a `false`
entry with no backend call; otherwise `send_message` is invoked (recorded
in the second component, the call log) and its boolean lands in the
results dict, with any exception caught and recorded as `false`. -/
def broadcastStep (st : CommsState) (message : Message)
    (acc : List (String × Bool) × List (String × Message)) (platform_name : String) :
    List (String × Bool) × List (String × Message) :=
  match List.lookup platform_name st.platforms with
  | none => (dictSet acc.1 platform_name false, acc.2)
  | some platform =>
    match platform.send_message message with
    | .ok success => (dictSet acc.1 platform_name success, acc.2 ++ [(platform_name, message)])
    | .exc _ => (dictSet acc.1 platform_name false, acc.2 ++ [(platform_name, message)])

/-- `BasiliskComms.broadcast_message` (comms.py lines 111-161). Returns
the Python outcome — normally `ok` of the results dict paired with the
log of `send_message` invocations (platform name and the message handed
to it); `exc` only for a formatting error other than `KeyError`, which
the source does not catch — together with the (unchanged) object state.
An unknown template or a `KeyError` during formatting short-circuits to
an empty results dict with an empty call log. -/
def broadcast_message (st : CommsState) (now : Nat) (template_name : String)
    (platforms : Option (List String)) (kwargs : List (String × String)) :
    PyResult (List (String × Bool) × List (String × Message)) × CommsState :=
  (match List.lookup template_name st.message_templates with
   | none => .ok ([], [])
   | some template =>
     match pyFormat template.content kwargs with
     | .exc (.keyError _) => .ok ([], [])
     | .exc e => .exc e
     | .ok message_content =>
       let message := broadcastMessageOf now template_name template message_content
       .ok ((targetsOf st platforms).foldl (broadcastStep st message) ([], [])),
   st)

/-- One pass of the loop of `react_across_platforms` (comms.py lines
191-201): invoke `react_to_message`, record its boolean, record `false`
when it raises. -/
def reactStep (message_id reaction : String)
    (results : List (String × Bool)) (pr : String × Backend) : List (String × Bool) :=
  match pr.2.react_to_message message_id reaction with
  | .ok success => dictSet results pr.1 success
  | .exc _ => dictSet results pr.1 false

/-- `BasiliskComms.react_across_platforms` (comms.py lines 191-201):
iterate over all active backends, aggregate per-platform booleans. -/
def react_across_platforms (st : CommsState) (message_id reaction : String) :
    List (String × Bool) × CommsState :=
  (st.platforms.foldl (reactStep message_id reaction) [], st)

/-- One pass of the loop of `delete_across_platforms` (comms.py lines
203-213). -/
def deleteStep (message_id : String)
    (results : List (String × Bool)) (pr : String × Backend) : List (String × Bool) :=
  match pr.2.delete_message message_id with
  | .ok success => dictSet results pr.1 success
  | .exc _ => dictSet results pr.1 false

/-- `BasiliskComms.delete_across_platforms` (comms.py lines 203-213). -/
def delete_across_platforms (st : CommsState) (message_id : String) :
    List (String × Bool) × CommsState :=
  (st.platforms.foldl (deleteStep message_id) [], st)

/-- Observable events of one monitor loop: a callback invocation with the
message it received, an error being logged, a sleep for the given number
of seconds. -/
inductive MonitorEvent where
  | callback_call (m : Message)
  | log_error
  | sleep (seconds : Nat)
deriving DecidableEq

/-- The `for message in messages: await callback(message)` body of the
monitor loop (base.py lines 76-77): each call is recorded; a callback
that raises ends the iteration early (the boolean reports whether all
calls returned). -/
def run_callbacks (cb : Message → PyResult Unit) : List Message → List MonitorEvent × Bool
  | [] => ([], true)
  | m :: rest =>
    match cb m with
    | .ok _ =>
      let r := run_callbacks cb rest
      (MonitorEvent.callback_call m :: r.1, r.2)
    | .exc _ => ([MonitorEvent.callback_call m], false)

/-- One iteration of `BasePlatform.monitor_messages` (base.py lines
73-81): fetch up to 10 messages for this poll; on success run the
callbacks then sleep `poll_interval` (default 60); if `get_messages` or a
callback raises, the `except` branch logs the error and sleeps
`error_delay` (default 300). -/
def monitor_iteration (b : Backend) (cb : Message → PyResult Unit) (i : Nat) :
    List MonitorEvent :=
  match b.get_messages 10 i with
  | .exc _ => [MonitorEvent.log_error, MonitorEvent.sleep (cfgGet b.config "error_delay" 300)]
  | .ok messages =>
    let r := run_callbacks cb messages
    if r.2 then r.1 ++ [MonitorEvent.sleep (cfgGet b.config "poll_interval" 60)]
    else r.1 ++ [MonitorEvent.log_error, MonitorEvent.sleep (cfgGet b.config "error_delay" 300)]

/-- The event trace of the first `n` iterations of the `while True` loop
of `monitor_messages`. The loop body has no break or return, so every
iteration is followed by another; the trace is defined for every `n`. -/
def monitor_messages (b : Backend) (cb : Message → PyResult Unit) : Nat → List MonitorEvent
  | 0 => []
  | n + 1 => monitor_messages b cb n ++ monitor_iteration b cb n

/-- `BasiliskComms.monitor_all_platforms` (comms.py lines 163-172): one
polling task per active backend, all sharing the callback; returns each
platform's trace for the first `n` iterations, and the (unchanged) object
state. -/
def monitor_all_platforms (st : CommsState) (cb : Message → PyResult Unit) (n : Nat) :
    List (String × List MonitorEvent) × CommsState :=
  (st.platforms.map (fun pr => (pr.1, monitor_messages pr.2 cb n)), st)

/-- `BasiliskComms.initialize_platforms` (comms.py lines 95-109): for
each configured platform name, the registry either knows the name or not
(unknown names only log a warning); a constructed backend is added to
`self.platforms` exactly when its `connect()` returns true; a false
`connect` or an exception anywhere in the body leaves the mapping
untouched for that entry. Registry lookup plus construction are
collapsed into an optional candidate paired with its `connect` outcome. -/
def initStep (ps : List (String × Backend))
    (pr : String × Option (PyResult Bool × Backend)) : List (String × Backend) :=
  match pr.2 with
  | none => ps
  | some cand =>
    match cand.1 with
    | .ok true => dictSet ps pr.1 cand.2
    | .ok false => ps
    | .exc _ => ps

/-- `BasiliskComms.initialize_platforms` proper: fold `initStep` over the
configured platforms, starting from the current mapping. -/
def initialize_platforms (st : CommsState)
    (configured : List (String × Option (PyResult Bool × Backend))) : CommsState :=
  { st with platforms := configured.foldl initStep st.platforms }

/-! Concrete backends, templates and states used by witnesses and
counterexamples. -/

/-- A backend whose every operation succeeds and whose polls yield no
messages. -/
def okBackend : Backend :=
  { send_message := fun _ => .ok true
    react_to_message := fun _ _ => .ok true
    delete_message := fun _ => .ok true
    get_messages := fun _ _ => .ok []
    config := [] }

/-- A backend whose every operation raises. -/
def raisingBackend : Backend :=
  { send_message := fun _ => .exc (.runtimeError "boom")
    react_to_message := fun _ _ => .exc (.runtimeError "boom")
    delete_message := fun _ => .exc (.runtimeError "boom")
    get_messages := fun _ _ => .exc (.runtimeError "boom")
    config := [] }

/-- A template with no replacement fields. -/
def plainTemplate : Template :=
  { content := "serpent", tags := ["emergence"], category := "identity" }

/-- A template with one named replacement field. -/
def greetTemplate : Template :=
  { content := "hello {name}", tags := [], category := "greeting" }

/-- A template whose content contains a NUL control character. -/
def nulTemplate : Template :=
  { content := String.mk ['a', Char.ofNat 0, 'b'], tags := [], category := "t" }

/-- A one-platform state whose template store holds the NUL-bearing
template. -/
def nulState : CommsState :=
  { platforms := [("matrix", okBackend)]
    message_templates := [("nul", nulTemplate)] }

/-- A one-platform state with a plain template. -/
def plainState : CommsState :=
  { platforms := [("matrix", okBackend)]
    message_templates := [("plain", plainTemplate)] }

/-- A one-platform state whose template store holds the one-placeholder
template. -/
def greetState : CommsState :=
  { platforms := [("matrix", okBackend)]
    message_templates := [("greet", greetTemplate)] }

/-- A sample observed message. -/
def sampleMessage : Message :=
  { content := "hi", timestamp := 0, platform := "matrix"
    metadata := none, attachments := none }

/-- A backend whose first poll yields one message and whose later polls
raise. -/
def pollingBackend : Backend :=
  { send_message := fun _ => .ok true
    react_to_message := fun _ _ => .ok true
    delete_message := fun _ => .ok true
    get_messages := fun _ i => if i = 0 then .ok [sampleMessage] else .exc (.runtimeError "down")
    config := [] }

/-- A callback that always returns normally. -/
def okCallback : Message → PyResult Unit := fun _ => .ok ()

/-- A callback that always raises. -/
def raisingCallback : Message → PyResult Unit := fun _ => .exc (.runtimeError "cb")

/-- A two-platform state (one healthy, one raising) with a plain
template. -/
def mixedState : CommsState :=
  { platforms := [("good", okBackend), ("bad", raisingBackend)]
    message_templates := [("plain", plainTemplate)] }

/-- `mixedState` with the raising backend replaced by a healthy one. -/
def healedState : CommsState :=
  { platforms := [("good", okBackend), ("bad", okBackend)]
    message_templates := [("plain", plainTemplate)] }

/-! Association-list dict lemmas shared by the claims. -/

theorem lookup_dictSet_self {α : Type} (d : List (String × α)) (k : String) (v : α) :
    List.lookup k (dictSet d k v) = some v := by
  induction d with
  | nil => simp [dictSet, List.lookup]
  | cons hd rest ih =>
    obtain ⟨k1, v1⟩ := hd
    by_cases h : k1 = k
    · subst h
      simp [dictSet, List.lookup]
    · have hbe : (k == k1) = false := by
        simp [beq_eq_false_iff_ne]
        exact fun hh => h hh.symm
      simp [dictSet, h, List.lookup, hbe, ih]

theorem lookup_dictSet_ne {α : Type} (d : List (String × α)) {k q : String} (v : α)
    (h : q ≠ k) : List.lookup q (dictSet d k v) = List.lookup q d := by
  induction d with
  | nil =>
    have hbe : (q == k) = false := by simp [beq_eq_false_iff_ne, h]
    simp [dictSet, List.lookup, hbe]
  | cons hd rest ih =>
    obtain ⟨k1, v1⟩ := hd
    have hbe : (q == k) = false := by simp [beq_eq_false_iff_ne, h]
    by_cases h1 : k1 = k
    · subst h1
      simp [dictSet, List.lookup, hbe]
    · simp [dictSet, h1, List.lookup, ih]

theorem mem_keys_dictSet {α : Type} (d : List (String × α)) (k q : String) (v : α) :
    q ∈ (dictSet d k v).map Prod.fst ↔ q ∈ d.map Prod.fst ∨ q = k := by
  induction d with
  | nil => simp [dictSet]
  | cons hd rest ih =>
    obtain ⟨k1, v1⟩ := hd
    by_cases h : k1 = k
    · subst h
      simp [dictSet]
      tauto
    · simp [dictSet, h, ih]
      tauto

theorem nodup_keys_dictSet {α : Type} (d : List (String × α)) (k : String) (v : α)
    (h : (d.map Prod.fst).Nodup) : ((dictSet d k v).map Prod.fst).Nodup := by
  induction d with
  | nil => simp [dictSet]
  | cons hd rest ih =>
    obtain ⟨k1, v1⟩ := hd
    rw [List.map_cons, List.nodup_cons] at h
    by_cases h1 : k1 = k
    · subst h1
      have hset : dictSet ((k1, v1) :: rest) k1 v = (k1, v) :: rest := by
        simp [dictSet]
      rw [hset, List.map_cons, List.nodup_cons]
      exact h
    · have hset : dictSet ((k1, v1) :: rest) k v = (k1, v1) :: dictSet rest k v := by
        simp [dictSet, h1]
      rw [hset, List.map_cons, List.nodup_cons]
      constructor
      · rw [mem_keys_dictSet]
        rintro (hmem | hmem)
        · exact h.1 hmem
        · exact h1 hmem
      · exact ih h.2

/-- C10: `sanitize_input` is idempotent — one pass keeps only printable
characters, so a second pass over its output removes nothing. -/
theorem sanitize_input_idempotent (s : String) :
    sanitize_input (sanitize_input s) = sanitize_input s := by
  unfold sanitize_input
  refine congrArg String.mk ?_
  show (s.data.filter isprintable).filter isprintable = s.data.filter isprintable
  induction s.data with
  | nil => rfl
  | cons c rest ih =>
    by_cases h : isprintable c <;> simp [List.filter_cons, h, ih]

/-- C7: `RateLimiter.can_proceed` never returns a boolean — its first
statement evaluates `time.time()` and the name `time` is not bound in
security.py (the module never imports it), so every call, on every
limiter state and at every clock value, raises NameError. The spec's
sliding-window admission behaviour is unobservable. -/
theorem can_proceed_always_raises (rl : RateLimiter) (clock : Int) :
    can_proceed rl clock = .exc (.nameError "time") := rfl

/-- C5: a template name absent from the template store makes
`broadcast_message` return an empty results mapping with an empty
send-call log (zero backend calls, no `Message` constructed). -/
theorem broadcast_unknown_template (st : CommsState) (now : Nat) (tn : String)
    (pl : Option (List String)) (kw : List (String × String))
    (hT : List.lookup tn st.message_templates = none) :
    (broadcast_message st now tn pl kw).1 = .ok ([], []) := by
  simp [broadcast_message, hT]

/-- Witness for C5 at a concrete state and template name. -/
theorem broadcast_unknown_template_witness :
    List.lookup "missing" plainState.message_templates = none ∧
    (broadcast_message plainState 0 "missing" none []).1 = .ok ([], []) :=
  ⟨by decide, broadcast_unknown_template plainState 0 "missing" none [] (by decide)⟩

/-- C6: a template whose content holds a named placeholder that the
caller's parameters do not supply makes formatting raise KeyError, which
`broadcast_message` catches: the call returns an empty results mapping
with an empty send-call log, and no error propagates. -/
theorem broadcast_missing_parameter (st : CommsState) (now : Nat) (tn : String)
    (pl : Option (List String)) (kw : List (String × String))
    (tmpl : Template) (k : String)
    (hT : List.lookup tn st.message_templates = some tmpl)
    (hF : pyFormat tmpl.content kw = .exc (.keyError k)) :
    (broadcast_message st now tn pl kw).1 = .ok ([], []) := by
  simp [broadcast_message, hT, hF]

/-- Witness for C6: the one-placeholder template formatted with no
parameters raises KeyError for the field name, and the broadcast returns
empty with no backend call. -/
theorem broadcast_missing_parameter_witness :
    List.lookup "greet" greetState.message_templates = some greetTemplate ∧
    pyFormat greetTemplate.content [] = .exc (.keyError "name") ∧
    (broadcast_message greetState 0 "greet" none []).1 = .ok ([], []) :=
  ⟨by decide, by decide,
   broadcast_missing_parameter greetState 0 "greet" none [] greetTemplate "name"
     (by decide) (by decide)⟩

/-! Shape lemmas for the per-target loops. -/

theorem broadcastStep_fst (st : CommsState) (message : Message)
    (acc : List (String × Bool) × List (String × Message)) (t : String) :
    ∃ v, (broadcastStep st message acc t).1 = dictSet acc.1 t v := by
  unfold broadcastStep
  cases List.lookup t st.platforms with
  | none => exact ⟨false, rfl⟩
  | some platform =>
    dsimp only
    cases platform.send_message message with
    | ok s => exact ⟨s, rfl⟩
    | exc e => exact ⟨false, rfl⟩

theorem reactStep_shape (mid rxn : String) (results : List (String × Bool))
    (pr : String × Backend) :
    ∃ v, reactStep mid rxn results pr = dictSet results pr.1 v := by
  unfold reactStep
  cases pr.2.react_to_message mid rxn with
  | ok s => exact ⟨s, rfl⟩
  | exc e => exact ⟨false, rfl⟩

theorem deleteStep_shape (mid : String) (results : List (String × Bool))
    (pr : String × Backend) :
    ∃ v, deleteStep mid results pr = dictSet results pr.1 v := by
  unfold deleteStep
  cases pr.2.delete_message mid with
  | ok s => exact ⟨s, rfl⟩
  | exc e => exact ⟨false, rfl⟩

theorem mem_keys_foldl_dictSet {α β : Type}
    (step : List (String × α) → β → List (String × α)) (key : β → String)
    (hstep : ∀ acc b, ∃ v, step acc b = dictSet acc (key b) v) :
    ∀ (l : List β) (acc : List (String × α)) (q : String),
      q ∈ (l.foldl step acc).map Prod.fst ↔ q ∈ acc.map Prod.fst ∨ q ∈ l.map key := by
  intro l
  induction l with
  | nil => intro acc q; simp
  | cons b rest ih =>
    intro acc q
    rw [List.foldl_cons, ih]
    obtain ⟨v, hv⟩ := hstep acc b
    rw [hv, mem_keys_dictSet]
    simp only [List.map_cons, List.mem_cons]
    tauto

theorem nodup_keys_foldl_dictSet {α β : Type}
    (step : List (String × α) → β → List (String × α)) (key : β → String)
    (hstep : ∀ acc b, ∃ v, step acc b = dictSet acc (key b) v) :
    ∀ (l : List β) (acc : List (String × α)),
      (acc.map Prod.fst).Nodup → ((l.foldl step acc).map Prod.fst).Nodup := by
  intro l
  induction l with
  | nil => intro acc h; exact h
  | cons b rest ih =>
    intro acc h
    rw [List.foldl_cons]
    apply ih
    obtain ⟨v, hv⟩ := hstep acc b
    rw [hv]
    exact nodup_keys_dictSet _ _ _ h

theorem mem_keys_broadcast_fold (st : CommsState) (message : Message) :
    ∀ (targets : List String) (acc : List (String × Bool) × List (String × Message)) (q : String),
      q ∈ ((targets.foldl (broadcastStep st message) acc).1.map Prod.fst) ↔
        q ∈ acc.1.map Prod.fst ∨ q ∈ targets := by
  intro targets
  induction targets with
  | nil => intro acc q; simp
  | cons t rest ih =>
    intro acc q
    rw [List.foldl_cons, ih]
    obtain ⟨v, hv⟩ := broadcastStep_fst st message acc t
    rw [hv, mem_keys_dictSet]
    simp only [List.mem_cons]
    tauto

theorem nodup_keys_broadcast_fold (st : CommsState) (message : Message) :
    ∀ (targets : List String) (acc : List (String × Bool) × List (String × Message)),
      (acc.1.map Prod.fst).Nodup →
      ((targets.foldl (broadcastStep st message) acc).1.map Prod.fst).Nodup := by
  intro targets
  induction targets with
  | nil => intro acc h; exact h
  | cons t rest ih =>
    intro acc h
    rw [List.foldl_cons]
    apply ih
    obtain ⟨v, hv⟩ := broadcastStep_fst st message acc t
    rw [hv]
    exact nodup_keys_dictSet _ _ _ h

/-- When the template resolves and formatting succeeds,
`broadcast_message` returns `ok` of the per-target fold over the
constructed message. -/
theorem broadcast_ok_shape (st : CommsState) (now : Nat) (tn : String)
    (pl : Option (List String)) (kw : List (String × String))
    (tmpl : Template) (c : String)
    (hT : List.lookup tn st.message_templates = some tmpl)
    (hF : pyFormat tmpl.content kw = .ok c) :
    (broadcast_message st now tn pl kw).1 =
      .ok ((targetsOf st pl).foldl
        (broadcastStep st (broadcastMessageOf now tn tmpl c)) ([], [])) := by
  simp [broadcast_message, hT, hF]

/-- C2: the mappings returned by `broadcast_message` (when the template
resolves and formats), `react_across_platforms` and
`delete_across_platforms` have exactly one boolean entry per requested
target: the key set equals the requested targets (the explicit list for
a broadcast, all active backends otherwise) and no key repeats. -/
theorem result_mapping_exact
    (st : CommsState) (now : Nat) (tn : String) (pl : Option (List String))
    (kw : List (String × String)) (tmpl : Template) (c : String) (mid rxn : String)
    (hT : List.lookup tn st.message_templates = some tmpl)
    (hF : pyFormat tmpl.content kw = .ok c) :
    (∃ res log, (broadcast_message st now tn pl kw).1 = .ok (res, log) ∧
      (res.map Prod.fst).Nodup ∧
      (∀ q, q ∈ res.map Prod.fst ↔ q ∈ targetsOf st pl)) ∧
    (((react_across_platforms st mid rxn).1.map Prod.fst).Nodup ∧
      ∀ q, q ∈ (react_across_platforms st mid rxn).1.map Prod.fst ↔
        q ∈ st.platforms.map Prod.fst) ∧
    (((delete_across_platforms st mid).1.map Prod.fst).Nodup ∧
      ∀ q, q ∈ (delete_across_platforms st mid).1.map Prod.fst ↔
        q ∈ st.platforms.map Prod.fst) := by
  refine ⟨?_, ⟨?_, ?_⟩, ⟨?_, ?_⟩⟩
  · refine ⟨((targetsOf st pl).foldl
        (broadcastStep st (broadcastMessageOf now tn tmpl c)) ([], [])).1,
      ((targetsOf st pl).foldl
        (broadcastStep st (broadcastMessageOf now tn tmpl c)) ([], [])).2,
      ?_, ?_, ?_⟩
    · rw [broadcast_ok_shape st now tn pl kw tmpl c hT hF]
    · exact nodup_keys_broadcast_fold st _ (targetsOf st pl) ([], []) (by simp)
    · intro q
      rw [mem_keys_broadcast_fold]
      simp
  · exact nodup_keys_foldl_dictSet _ Prod.fst (reactStep_shape mid rxn)
      st.platforms [] (by simp)
  · intro q
    show q ∈ (st.platforms.foldl (reactStep mid rxn) []).map Prod.fst ↔ _
    rw [mem_keys_foldl_dictSet _ Prod.fst (reactStep_shape mid rxn)]
    simp
  · exact nodup_keys_foldl_dictSet _ Prod.fst (deleteStep_shape mid)
      st.platforms [] (by simp)
  · intro q
    show q ∈ (st.platforms.foldl (deleteStep mid) []).map Prod.fst ↔ _
    rw [mem_keys_foldl_dictSet _ Prod.fst (deleteStep_shape mid)]
    simp

/-- Witness for C2 at a concrete state with a healthy backend, a raising
backend and a requested target that was never initialized. -/
theorem result_mapping_exact_witness :
    (∃ res log, (broadcast_message mixedState 0 "plain"
        (some ["good", "bad", "ghost"]) []).1 = .ok (res, log) ∧
      (res.map Prod.fst).Nodup ∧
      (∀ q, q ∈ res.map Prod.fst ↔
        q ∈ targetsOf mixedState (some ["good", "bad", "ghost"]))) ∧
    (((react_across_platforms mixedState "m1" "+1").1.map Prod.fst).Nodup ∧
      ∀ q, q ∈ (react_across_platforms mixedState "m1" "+1").1.map Prod.fst ↔
        q ∈ mixedState.platforms.map Prod.fst) ∧
    (((delete_across_platforms mixedState "m1").1.map Prod.fst).Nodup ∧
      ∀ q, q ∈ (delete_across_platforms mixedState "m1").1.map Prod.fst ↔
        q ∈ mixedState.platforms.map Prod.fst) :=
  result_mapping_exact mixedState 0 "plain" (some ["good", "bad", "ghost"]) []
    plainTemplate "serpent" "m1" "+1" (by decide) (by decide)

theorem broadcastStep_failing (st : CommsState) (message : Message) (p : String) (b : Backend)
    (hPp : List.lookup p st.platforms = some b)
    (hfail : b.send_message message = .ok false ∨ ∃ e, b.send_message message = .exc e) :
    ∀ acc, (broadcastStep st message acc p).1 = dictSet acc.1 p false := by
  intro acc
  unfold broadcastStep
  rw [hPp]
  dsimp only
  rcases hfail with h | ⟨e, h⟩ <;> rw [h]

theorem broadcast_fold_keeps_false (st : CommsState) (message : Message) (p : String)
    (hfalse : ∀ acc, (broadcastStep st message acc p).1 = dictSet acc.1 p false) :
    ∀ (targets : List String) (acc : List (String × Bool) × List (String × Message)),
      List.lookup p acc.1 = some false →
      List.lookup p ((targets.foldl (broadcastStep st message) acc).1) = some false := by
  intro targets
  induction targets with
  | nil => intro acc h; exact h
  | cons t rest ih =>
    intro acc h
    rw [List.foldl_cons]
    apply ih
    by_cases ht : t = p
    · subst ht
      rw [hfalse acc, lookup_dictSet_self]
    · obtain ⟨v, hv⟩ := broadcastStep_fst st message acc t
      rw [hv, lookup_dictSet_ne _ _ (fun hh => ht hh.symm)]
      exact h

theorem broadcast_fold_sets_false (st : CommsState) (message : Message) (p : String)
    (hfalse : ∀ acc, (broadcastStep st message acc p).1 = dictSet acc.1 p false) :
    ∀ (targets : List String) (acc : List (String × Bool) × List (String × Message)),
      p ∈ targets →
      List.lookup p ((targets.foldl (broadcastStep st message) acc).1) = some false := by
  intro targets
  induction targets with
  | nil => intro acc h; cases h
  | cons t rest ih =>
    intro acc hmem
    rw [List.foldl_cons]
    by_cases ht : t = p
    · subst ht
      apply broadcast_fold_keeps_false st message t hfalse rest
      rw [hfalse acc, lookup_dictSet_self]
    · rcases List.mem_cons.mp hmem with h1 | h2
      · exact absurd h1.symm ht
      · exact ih _ h2

theorem broadcast_fold_agree (st st2 : CommsState) (message : Message) (p : String)
    (hagree : ∀ q, q ≠ p → List.lookup q st.platforms = List.lookup q st2.platforms) :
    ∀ (targets : List String) (acc acc2 : List (String × Bool) × List (String × Message)),
      (∀ q, q ≠ p → List.lookup q acc.1 = List.lookup q acc2.1) →
      ∀ q, q ≠ p →
        List.lookup q ((targets.foldl (broadcastStep st message) acc).1) =
        List.lookup q ((targets.foldl (broadcastStep st2 message) acc2).1) := by
  intro targets
  induction targets with
  | nil => intro acc acc2 hinv q hq; exact hinv q hq
  | cons t rest ih =>
    intro acc acc2 hinv q hq
    rw [List.foldl_cons, List.foldl_cons]
    apply ih _ _ ?_ q hq
    intro r hr
    by_cases hrt : r = t
    · subst hrt
      have hPt : List.lookup r st.platforms = List.lookup r st2.platforms := hagree r hr
      unfold broadcastStep
      rw [← hPt]
      cases List.lookup r st.platforms with
      | none => dsimp only; rw [lookup_dictSet_self, lookup_dictSet_self]
      | some platform =>
        dsimp only
        cases platform.send_message message with
        | ok s => dsimp only; rw [lookup_dictSet_self, lookup_dictSet_self]
        | exc e => dsimp only; rw [lookup_dictSet_self, lookup_dictSet_self]
    · obtain ⟨v, hv⟩ := broadcastStep_fst st message acc t
      obtain ⟨w, hw⟩ := broadcastStep_fst st2 message acc2 t
      rw [hv, hw, lookup_dictSet_ne _ _ hrt, lookup_dictSet_ne _ _ hrt]
      exact hinv r hr

theorem targetsOf_congr (st st2 : CommsState) (pl : Option (List String))
    (hkeys : st.platforms.map Prod.fst = st2.platforms.map Prod.fst) :
    targetsOf st pl = targetsOf st2 pl := by
  cases pl with
  | none => simp [targetsOf, hkeys]
  | some l => simp [targetsOf, hkeys]

/-- C3: per-platform failure isolation in `broadcast_message`. Take two
platform mappings with the same names that agree everywhere except at
`p`, where the first holds a backend whose `send_message` on the
broadcast message returns false or raises. Both broadcasts return
normally (the backend's exception never escapes `broadcast_message`),
the failing platform's entry is `false`, and every other requested
target's entry is identical to what the run without the failure
computes. -/
theorem broadcast_failure_isolation
    (P P2 : List (String × Backend)) (T : List (String × Template))
    (now : Nat) (tn p : String) (pl : Option (List String)) (kw : List (String × String))
    (tmpl : Template) (c : String) (b : Backend)
    (hT : List.lookup tn T = some tmpl)
    (hF : pyFormat tmpl.content kw = .ok c)
    (hkeys : P.map Prod.fst = P2.map Prod.fst)
    (hagree : ∀ q, q ≠ p → List.lookup q P = List.lookup q P2)
    (hPp : List.lookup p P = some b)
    (hfail : b.send_message (broadcastMessageOf now tn tmpl c) = .ok false ∨
             ∃ e, b.send_message (broadcastMessageOf now tn tmpl c) = .exc e) :
    ∃ res log res2 log2,
      (broadcast_message ⟨P, T⟩ now tn pl kw).1 = .ok (res, log) ∧
      (broadcast_message ⟨P2, T⟩ now tn pl kw).1 = .ok (res2, log2) ∧
      (p ∈ targetsOf ⟨P, T⟩ pl → List.lookup p res = some false) ∧
      (∀ q, q ≠ p → List.lookup q res = List.lookup q res2) := by
  have h1 := broadcast_ok_shape ⟨P, T⟩ now tn pl kw tmpl c hT hF
  have h2 := broadcast_ok_shape ⟨P2, T⟩ now tn pl kw tmpl c hT hF
  refine ⟨((targetsOf ⟨P, T⟩ pl).foldl
      (broadcastStep ⟨P, T⟩ (broadcastMessageOf now tn tmpl c)) ([], [])).1,
    ((targetsOf ⟨P, T⟩ pl).foldl
      (broadcastStep ⟨P, T⟩ (broadcastMessageOf now tn tmpl c)) ([], [])).2,
    ((targetsOf ⟨P2, T⟩ pl).foldl
      (broadcastStep ⟨P2, T⟩ (broadcastMessageOf now tn tmpl c)) ([], [])).1,
    ((targetsOf ⟨P2, T⟩ pl).foldl
      (broadcastStep ⟨P2, T⟩ (broadcastMessageOf now tn tmpl c)) ([], [])).2,
    by rw [h1], by rw [h2], ?_, ?_⟩
  · intro hpmem
    exact broadcast_fold_sets_false ⟨P, T⟩ (broadcastMessageOf now tn tmpl c) p
      (broadcastStep_failing ⟨P, T⟩ (broadcastMessageOf now tn tmpl c) p b hPp hfail)
      (targetsOf ⟨P, T⟩ pl) ([], []) hpmem
  · intro q hq
    rw [targetsOf_congr ⟨P, T⟩ ⟨P2, T⟩ pl hkeys]
    exact broadcast_fold_agree ⟨P, T⟩ ⟨P2, T⟩ (broadcastMessageOf now tn tmpl c) p hagree
      (targetsOf ⟨P2, T⟩ pl) ([], []) ([], []) (fun r hr => rfl) q hq

/-- Witness for C3: a raising backend at platform `bad` next to a
healthy one, compared with the same state where `bad` is healthy. -/
theorem broadcast_failure_isolation_witness :
    ∃ res log res2 log2,
      (broadcast_message ⟨[("good", okBackend), ("bad", raisingBackend)],
          [("plain", plainTemplate)]⟩ 0 "plain" none []).1 = .ok (res, log) ∧
      (broadcast_message ⟨[("good", okBackend), ("bad", okBackend)],
          [("plain", plainTemplate)]⟩ 0 "plain" none []).1 = .ok (res2, log2) ∧
      ("bad" ∈ targetsOf ⟨[("good", okBackend), ("bad", raisingBackend)],
          [("plain", plainTemplate)]⟩ none → List.lookup "bad" res = some false) ∧
      (∀ q, q ≠ "bad" → List.lookup q res = List.lookup q res2) :=
  broadcast_failure_isolation
    [("good", okBackend), ("bad", raisingBackend)]
    [("good", okBackend), ("bad", okBackend)]
    [("plain", plainTemplate)]
    0 "plain" "bad" none [] plainTemplate "serpent" raisingBackend
    (by decide) (by decide) (by decide)
    (fun q hq => by
      by_cases h1 : q = "good"
      · subst h1; rfl
      · have b1 : (q == "good") = false := by simp [beq_eq_false_iff_ne, h1]
        have b2 : (q == "bad") = false := by simp [beq_eq_false_iff_ne, hq]
        simp [List.lookup, b1, b2])
    rfl (Or.inr ⟨.runtimeError "boom", rfl⟩)

theorem broadcastStep_absent (st : CommsState) (message : Message) (k : String)
    (habs : List.lookup k st.platforms = none) :
    ∀ acc, broadcastStep st message acc k = (dictSet acc.1 k false, acc.2) := by
  intro acc
  unfold broadcastStep
  rw [habs]

theorem broadcast_fold_log_no_absent (st : CommsState) (message : Message) (k : String)
    (habs : List.lookup k st.platforms = none) :
    ∀ (targets : List String) (acc : List (String × Bool) × List (String × Message)),
      (∀ e ∈ acc.2, e.1 ≠ k) →
      ∀ e ∈ (targets.foldl (broadcastStep st message) acc).2, e.1 ≠ k := by
  intro targets
  induction targets with
  | nil => intro acc h; exact h
  | cons t rest ih =>
    intro acc h
    rw [List.foldl_cons]
    apply ih
    by_cases ht : t = k
    · subst ht
      rw [broadcastStep_absent st message t habs acc]
      exact h
    · unfold broadcastStep
      cases List.lookup t st.platforms with
      | none => exact h
      | some platform =>
        dsimp only
        cases platform.send_message message <;>
        · dsimp only
          intro e he
          rcases List.mem_append.mp he with h1 | h1
          · exact h e h1
          · rw [List.mem_singleton] at h1
            subst h1
            exact ht

theorem broadcast_fold_log_msg (st : CommsState) (message : Message) :
    ∀ (targets : List String) (acc : List (String × Bool) × List (String × Message)),
      (∀ e ∈ acc.2, e.2 = message) →
      ∀ e ∈ (targets.foldl (broadcastStep st message) acc).2, e.2 = message := by
  intro targets
  induction targets with
  | nil => intro acc h; exact h
  | cons t rest ih =>
    intro acc h
    rw [List.foldl_cons]
    apply ih
    unfold broadcastStep
    cases List.lookup t st.platforms with
    | none => exact h
    | some platform =>
      dsimp only
      cases platform.send_message message <;>
      · dsimp only
        intro e he
        rcases List.mem_append.mp he with h1 | h1
        · exact h e h1
        · rw [List.mem_singleton] at h1
          subst h1
          rfl

/-- C4 counterexample: the claim says an explicit empty target list
yields no targets, but `platforms or self.platforms.keys()` treats the
empty list as falsy: with one active backend, a broadcast with the
explicit empty list still targets it and sends to it. -/
theorem explicit_empty_targets_counterexample :
    targetsOf plainState (some []) = ["matrix"] ∧
    (broadcast_message plainState 0 "plain" (some []) []).1 =
      .ok ([("matrix", true)],
        [("matrix", broadcastMessageOf 0 "plain" plainTemplate "serpent")]) :=
  ⟨by decide, by decide⟩

/-- C4 amended: a non-empty explicit target list is used exactly as
given; an explicit empty list behaves like no list at all (both fall
back to all currently active backends, since Python `or` treats the
empty list as falsy); and a requested target absent from the
active-backend mapping gets a `false` entry while no `send_message`
call is made for it. -/
theorem target_selection_amended
    (st : CommsState) (now : Nat) (tn : String) (kw : List (String × String))
    (tmpl : Template) (c : String) (l : List String) (k : String)
    (pl : Option (List String))
    (hl : l ≠ [])
    (hT : List.lookup tn st.message_templates = some tmpl)
    (hF : pyFormat tmpl.content kw = .ok c)
    (hk : List.lookup k st.platforms = none)
    (hmem : k ∈ targetsOf st pl) :
    targetsOf st (some l) = l ∧
    targetsOf st (some []) = st.platforms.map Prod.fst ∧
    targetsOf st none = st.platforms.map Prod.fst ∧
    ∃ res log, (broadcast_message st now tn pl kw).1 = .ok (res, log) ∧
      List.lookup k res = some false ∧ (∀ e ∈ log, e.1 ≠ k) := by
  refine ⟨by simp [targetsOf, hl], rfl, rfl, ?_⟩
  refine ⟨((targetsOf st pl).foldl
      (broadcastStep st (broadcastMessageOf now tn tmpl c)) ([], [])).1,
    ((targetsOf st pl).foldl
      (broadcastStep st (broadcastMessageOf now tn tmpl c)) ([], [])).2,
    by rw [broadcast_ok_shape st now tn pl kw tmpl c hT hF], ?_, ?_⟩
  · exact broadcast_fold_sets_false st (broadcastMessageOf now tn tmpl c) k
      (fun acc => by rw [broadcastStep_absent st (broadcastMessageOf now tn tmpl c) k hk acc])
      (targetsOf st pl) ([], []) hmem
  · exact broadcast_fold_log_no_absent st (broadcastMessageOf now tn tmpl c) k hk
      (targetsOf st pl) ([], []) (by simp)

/-- Witness for the amended C4 at a concrete state with an
uninitialized requested target. -/
theorem target_selection_amended_witness :
    targetsOf plainState (some ["x"]) = ["x"] ∧
    targetsOf plainState (some []) = plainState.platforms.map Prod.fst ∧
    targetsOf plainState none = plainState.platforms.map Prod.fst ∧
    ∃ res log,
      (broadcast_message plainState 0 "plain" (some ["ghost", "matrix"]) []).1 =
        .ok (res, log) ∧
      List.lookup "ghost" res = some false ∧ (∀ e ∈ log, e.1 ≠ "ghost") :=
  target_selection_amended plainState 0 "plain" [] plainTemplate "serpent"
    ["x"] "ghost" (some ["ghost", "matrix"])
    (by decide) (by decide) (by decide) rfl (by decide)

/-- C1 counterexample: the claim says the content delivered to backends
has passed `sanitize_input` and so contains only printable characters;
but broadcasting a template whose content holds a NUL character hands
the backend that exact content: it is not all-printable, and one
`sanitize_input` pass would have changed it. -/
theorem broadcast_sanitize_counterexample :
    (broadcast_message nulState 0 "nul" none []).1 =
      .ok ([("matrix", true)],
        [("matrix", broadcastMessageOf 0 "nul" nulTemplate
            (String.mk ['a', Char.ofNat 0, 'b']))]) ∧
    (broadcastMessageOf 0 "nul" nulTemplate
        (String.mk ['a', Char.ofNat 0, 'b'])).content.data.all isprintable = false ∧
    sanitize_input (broadcastMessageOf 0 "nul" nulTemplate
        (String.mk ['a', Char.ofNat 0, 'b'])).content ≠
      (broadcastMessageOf 0 "nul" nulTemplate
        (String.mk ['a', Char.ofNat 0, 'b'])).content :=
  ⟨by decide, by decide, by decide⟩

/-- C1 amended: `broadcast_message` applies no sanitization step —
every message recorded in the send-call log is exactly the Message
built from the raw formatted template content, so backends receive that
content unchanged, printable or not. -/
theorem broadcast_content_unsanitized
    (st : CommsState) (now : Nat) (tn : String) (pl : Option (List String))
    (kw : List (String × String)) (tmpl : Template) (c : String)
    (res : List (String × Bool)) (log : List (String × Message))
    (hT : List.lookup tn st.message_templates = some tmpl)
    (hF : pyFormat tmpl.content kw = .ok c)
    (hres : (broadcast_message st now tn pl kw).1 = .ok (res, log)) :
    ∀ e ∈ log, e.2 = broadcastMessageOf now tn tmpl c ∧ e.2.content = c := by
  have hsh := broadcast_ok_shape st now tn pl kw tmpl c hT hF
  rw [hres] at hsh
  have hlog : log = ((targetsOf st pl).foldl
      (broadcastStep st (broadcastMessageOf now tn tmpl c)) ([], [])).2 := by
    injection hsh with h
    exact congrArg Prod.snd h
  intro e he
  rw [hlog] at he
  have hmsg := broadcast_fold_log_msg st (broadcastMessageOf now tn tmpl c)
    (targetsOf st pl) ([], []) (by simp) e he
  refine ⟨hmsg, ?_⟩
  rw [hmsg]
  rfl

/-- Witness for the amended C1 at the NUL-bearing template, specialized
to the one entry of the concrete send-call log. -/
theorem broadcast_content_unsanitized_witness :
    ("matrix", broadcastMessageOf 0 "nul" nulTemplate
        (String.mk ['a', Char.ofNat 0, 'b'])).2 =
      broadcastMessageOf 0 "nul" nulTemplate (String.mk ['a', Char.ofNat 0, 'b']) ∧
    ("matrix", broadcastMessageOf 0 "nul" nulTemplate
        (String.mk ['a', Char.ofNat 0, 'b'])).2.content =
      String.mk ['a', Char.ofNat 0, 'b'] :=
  broadcast_content_unsanitized nulState 0 "nul" none [] nulTemplate
    (String.mk ['a', Char.ofNat 0, 'b'])
    [("matrix", true)]
    [("matrix", broadcastMessageOf 0 "nul" nulTemplate (String.mk ['a', Char.ofNat 0, 'b']))]
    (by decide) (by decide) (by decide)
    ("matrix", broadcastMessageOf 0 "nul" nulTemplate (String.mk ['a', Char.ofNat 0, 'b']))
    (by decide)

theorem run_callbacks_all_ok (cb : Message → PyResult Unit) :
    ∀ msgs : List Message, (∀ m ∈ msgs, cb m = .ok ()) →
      run_callbacks cb msgs = (msgs.map MonitorEvent.callback_call, true) := by
  intro msgs
  induction msgs with
  | nil => intro h; rfl
  | cons m rest ih =>
    intro h
    have hm : cb m = .ok () := h m (List.mem_cons_self m rest)
    have hrest := ih (fun x hx => h x (List.mem_cons_of_mem m hx))
    simp [run_callbacks, hm, hrest]

theorem run_callbacks_raises (cb : Message → PyResult Unit) (e : PyExc) :
    ∀ (pre : List Message) (m : Message) (rest : List Message),
      (∀ x ∈ pre, cb x = .ok ()) → cb m = .exc e →
      run_callbacks cb (pre ++ m :: rest) =
        (pre.map MonitorEvent.callback_call ++ [MonitorEvent.callback_call m], false) := by
  intro pre
  induction pre with
  | nil => intro m rest hpre hm; simp [run_callbacks, hm]
  | cons x xs ih =>
    intro m rest hpre hm
    have hx : cb x = .ok () := hpre x (List.mem_cons_self x xs)
    have hxs := ih m rest (fun y hy => hpre y (List.mem_cons_of_mem x hy)) hm
    simp [run_callbacks, hx, hxs]

/-- C8: behaviour of one `monitor_messages` iteration and of the loop.
When the poll returns N messages and the callback returns normally on
each, the iteration's events are exactly N callback invocations in
fetch order followed by a sleep of `poll_interval` (default 60s). When
any step of the iteration raises, the iteration ends with a logged
error and an `error_delay` sleep (default 300s): both when the raising
step is `get_messages` itself and when it is the callback invocation on
some fetched message (the earlier messages' callbacks having run). The
loop never ends on its own: after any number of iterations the trace
extends by one more non-empty iteration; only external cancellation
(not modelled inside the loop, which has no exit path) stops it. -/
theorem monitor_loop_behavior (b : Backend) (cb : Message → PyResult Unit) (n : Nat) :
    (∀ msgs, b.get_messages 10 n = .ok msgs → (∀ m ∈ msgs, cb m = .ok ()) →
      monitor_iteration b cb n =
        msgs.map MonitorEvent.callback_call ++
          [MonitorEvent.sleep (cfgGet b.config "poll_interval" 60)]) ∧
    (∀ pre m rest e, b.get_messages 10 n = .ok (pre ++ m :: rest) →
      (∀ x ∈ pre, cb x = .ok ()) → cb m = .exc e →
      monitor_iteration b cb n =
        pre.map MonitorEvent.callback_call ++ [MonitorEvent.callback_call m] ++
          [MonitorEvent.log_error,
           MonitorEvent.sleep (cfgGet b.config "error_delay" 300)]) ∧
    (∀ e, b.get_messages 10 n = .exc e →
      monitor_iteration b cb n =
        [MonitorEvent.log_error, MonitorEvent.sleep (cfgGet b.config "error_delay" 300)]) ∧
    monitor_messages b cb (n + 1) = monitor_messages b cb n ++ monitor_iteration b cb n ∧
    monitor_iteration b cb n ≠ [] := by
  refine ⟨?_, ?_, ?_, rfl, ?_⟩
  · intro msgs hg hcb
    simp [monitor_iteration, hg, run_callbacks_all_ok cb msgs hcb]
  · intro pre m rest e hg hpre hm
    simp [monitor_iteration, hg, run_callbacks_raises cb e pre m rest hpre hm]
  · intro e hg
    simp [monitor_iteration, hg]
  · unfold monitor_iteration
    cases b.get_messages 10 n with
    | exc e => simp
    | ok msgs =>
      dsimp only
      split <;> simp

/-- Witness for C8: a backend whose first poll yields one message and
whose second poll raises, once with a normally-returning callback and
once with a raising callback; the loop handles every case and
continues. -/
theorem monitor_loop_behavior_witness :
    monitor_iteration pollingBackend okCallback 0 =
      [MonitorEvent.callback_call sampleMessage, MonitorEvent.sleep 60] ∧
    monitor_iteration pollingBackend raisingCallback 0 =
      [MonitorEvent.callback_call sampleMessage, MonitorEvent.log_error,
       MonitorEvent.sleep 300] ∧
    monitor_iteration pollingBackend okCallback 1 =
      [MonitorEvent.log_error, MonitorEvent.sleep 300] ∧
    monitor_messages pollingBackend okCallback 2 =
      monitor_messages pollingBackend okCallback 1 ++
        monitor_iteration pollingBackend okCallback 1 ∧
    monitor_iteration pollingBackend okCallback 0 ≠ [] := by
  have H0 := monitor_loop_behavior pollingBackend okCallback 0
  have H0r := monitor_loop_behavior pollingBackend raisingCallback 0
  have H1 := monitor_loop_behavior pollingBackend okCallback 1
  refine ⟨?_, ?_, ?_, H1.2.2.2.1, H0.2.2.2.2⟩
  · exact H0.1 [sampleMessage] rfl (fun m _ => rfl)
  · exact H0r.2.1 [] sampleMessage [] (.runtimeError "cb") rfl
      (fun x hx => absurd hx (List.not_mem_nil x)) rfl
  · exact H1.2.2.1 (.runtimeError "down") rfl

theorem initStep_keys (ps : List (String × Backend))
    (pr : String × Option (PyResult Bool × Backend)) (k : String)
    (h : k ∈ ps.map Prod.fst) : k ∈ (initStep ps pr).map Prod.fst := by
  unfold initStep
  cases pr.2 with
  | none => exact h
  | some cand =>
    dsimp only
    cases cand.1 with
    | exc e => exact h
    | ok bv =>
      cases bv
      · exact h
      · rw [mem_keys_dictSet]
        exact Or.inl h

theorem init_fold_keys :
    ∀ (configured : List (String × Option (PyResult Bool × Backend)))
      (ps : List (String × Backend)) (k : String),
      k ∈ ps.map Prod.fst → k ∈ (configured.foldl initStep ps).map Prod.fst := by
  intro configured
  induction configured with
  | nil => intro ps k h; exact h
  | cons pr rest ih =>
    intro ps k h
    rw [List.foldl_cons]
    exact ih _ k (initStep_keys ps pr k h)

/-- C9: the query operations `broadcast_message`,
`react_across_platforms`, `delete_across_platforms` and
`monitor_all_platforms` leave the whole `BasiliskComms` state — the
active-backend mapping and the template store — unchanged; and the
lifecycle operation `initialize_platforms` only adds to the
active-backend mapping (every existing platform name survives) while
leaving the template store alone. -/
theorem query_operations_preserve_state
    (st : CommsState) (now : Nat) (tn : String) (pl : Option (List String))
    (kw : List (String × String)) (mid rxn : String)
    (cb : Message → PyResult Unit) (n : Nat)
    (configured : List (String × Option (PyResult Bool × Backend))) :
    (broadcast_message st now tn pl kw).2 = st ∧
    (react_across_platforms st mid rxn).2 = st ∧
    (delete_across_platforms st mid).2 = st ∧
    (monitor_all_platforms st cb n).2 = st ∧
    (initialize_platforms st configured).message_templates = st.message_templates ∧
    (∀ k, k ∈ st.platforms.map Prod.fst →
      k ∈ (initialize_platforms st configured).platforms.map Prod.fst) := by
  refine ⟨rfl, rfl, rfl, rfl, rfl, ?_⟩
  intro k h
  exact init_fold_keys configured st.platforms k h

/-- Witness for C9 at a concrete state, with one platform added by
initialization. -/
theorem query_operations_preserve_state_witness :
    (broadcast_message plainState 0 "plain" none []).2 = plainState ∧
    (react_across_platforms plainState "m1" "r").2 = plainState ∧
    (delete_across_platforms plainState "m1").2 = plainState ∧
    (monitor_all_platforms plainState okCallback 1).2 = plainState ∧
    (initialize_platforms plainState
      [("twitter", some (.ok true, okBackend))]).message_templates =
        plainState.message_templates ∧
    "matrix" ∈ (initialize_platforms plainState
      [("twitter", some (.ok true, okBackend))]).platforms.map Prod.fst := by
  have H := query_operations_preserve_state plainState 0 "plain" none [] "m1" "r"
    okCallback 1 [("twitter", some (.ok true, okBackend))]
  exact ⟨H.1, H.2.1, H.2.2.1, H.2.2.2.1, H.2.2.2.2.1,
    H.2.2.2.2.2 "matrix" (by decide)⟩

end Basilisk
